import Mathlib

/-!
Verification of the frame-acquisition pipeline in `src/gui/camera_feed.py`
(class `CameraGrabber` and the consumer `_build_camera_window.update_ui`).

The Python code is shallowly embedded as pure Lean functions:
* wall-clock times (`time.time()`) are rationals,
* the outcome of each `cam.RetrieveResult(5000, TimeoutHandling_ThrowException)`
  call is an element of `GrabOutcome` supplied as an input trace
  (with `TimeoutHandling_ThrowException` a timeout raises an exception;
  `grab.GrabSucceeded()` may also be false without raising),
* the `queue.Queue(maxsize=2)` preview queue with `put_nowait` is a list of
  frame ids capped at 2 (on `queue.Full` the exception is caught and the
  frame dropped),
* the boolean return value of `cv2.imwrite` is an oracle `w : Nat → Bool`;
  the source discards it, and the `writeOk` field recording it in the
  `saved` ghost log is observational only,
* the `finally:` teardown block is the function `teardown`; its
  `except Exception: pass` means a raise from `StopGrabbing/Close` (the
  `closeRaises` input) never changes the returned state; the SDK contract is
  that `Close()` releases the handle,
* the cooperative `stop_event` is a predicate on the iteration index.

Ghost fields (`saved`, `retrievals`, `teardowns`) instrument the embedding so
the theorems can observe persistence order, retrieval counts and teardown
counts; they do not influence control flow.
-/

namespace CameraFeed

/-- `TARGET_UI_FPS = 30` in the source (UI refresh target). -/
def TARGET_UI_FPS : ℕ := 30

/-- `SAVE_RATE = 60.0` in the source. -/
def SAVE_RATE : ℚ := 60

/-- `TARGET_SAVE_INTERVAL = 1.0 / SAVE_RATE` in the source. -/
def TARGET_SAVE_INTERVAL : ℚ := 1 / SAVE_RATE

/-- Python `f"{n:06d}"`: decimal digits of `n` left-padded with zeros to
width 6 (wider numbers are printed in full). -/
def pad6 (n : ℕ) : String :=
  let s := toString n
  String.mk (List.replicate (6 - s.length) '0') ++ s

/-- The file name built at the save site:
`f"frame_{self.frame_index:06d}.jpg"` (the `IMAGES_DIR` prefix from
`os.path.join` is a per-session constant and is omitted). -/
def frameFilename (n : ℕ) : String :=
  "frame_" ++ pad6 n ++ ".jpg"

/-- `q.put_nowait(frame)` on a `queue.Queue(maxsize=cap)` with the
`except queue.Full: pass` handler: append if below capacity, otherwise drop
the new frame. Total function: the producer is never blocked. -/
def putNowait (cap : ℕ) (q : List ℕ) (x : ℕ) : List ℕ :=
  if q.length < cap then q ++ [x] else q

/-- One record per executed save site (`cv2.imwrite` call), in execution
order. `writeOk` is the discarded boolean result of `cv2.imwrite`. -/
structure SavedFrame where
  index : ℕ
  time : ℚ
  filename : String
  writeOk : Bool
deriving Repr, DecidableEq

/-- The mutable attributes of a `CameraGrabber` object, plus ghost
instrumentation. `camAssigned` is `self.cam is not None`; `camClosed` records
that the teardown `StopGrabbing/Close` pair was invoked on the handle. -/
structure GrabberState where
  q : List ℕ
  err : Option String
  frameIndex : ℕ
  lastSaveTime : ℚ
  saved : List SavedFrame
  camAssigned : Bool
  camClosed : Bool
  retrievals : ℕ
  teardowns : ℕ
deriving Repr, DecidableEq

/-- `CameraGrabber.__init__`: empty queue, `err = None`, `frame_index = 0`,
`last_save_time = 0`, `cam = None`. -/
def initState : GrabberState :=
  { q := []
    err := none
    frameIndex := 0
    lastSaveTime := 0
    saved := []
    camAssigned := false
    camClosed := false
    retrievals := 0
    teardowns := 0 }

/-- Outcome of one `RetrieveResult(5000, TimeoutHandling_ThrowException)`
call: a successful grab carrying the wall-clock time `time.time()` observed
just after conversion, an unsuccessful grab (`GrabSucceeded()` false), a
timeout exception, or a device-failure exception. -/
inductive GrabOutcome where
  | success (t : ℚ)
  | grabFailed
  | timeoutExn (msg : String)
  | failureExn (msg : String)
deriving Repr, DecidableEq

/-- Whether the outcome is an exception raised out of `RetrieveResult`. -/
def GrabOutcome.isExn : GrabOutcome → Bool
  | .success _ => false
  | .grabFailed => false
  | .timeoutExn _ => true
  | .failureExn _ => true

/-- Body of the `if grab.GrabSucceeded():` block for one converted frame
`fid` at wall-clock time `t`: push to the preview queue with `put_nowait`
(drop on `queue.Full`), then the save-cadence check
`if now - self.last_save_time >= TARGET_SAVE_INTERVAL:` — on success write
the file (result of `cv2.imwrite` discarded), set `last_save_time = now`
and increment `frame_index`. -/
def processFrame (w : ℕ → Bool) (s : GrabberState) (fid : ℕ) (t : ℚ) :
    GrabberState :=
  let s1 := { s with q := putNowait 2 s.q fid }
  if TARGET_SAVE_INTERVAL ≤ t - s1.lastSaveTime then
    { s1 with
      saved := s1.saved ++
        [⟨s1.frameIndex, t, frameFilename s1.frameIndex, w s1.frameIndex⟩]
      lastSaveTime := t
      frameIndex := s1.frameIndex + 1 }
  else s1

/-- The `while not self.stop_event.is_set() and self.cam.IsGrabbing():` loop
of `CameraGrabber.run`, together with the enclosing
`except Exception as e: self.err = str(e)`. `stopSet i` is the value
`stop_event.is_set()` reads at iteration `i` (checked before the retrieval);
`outs` is the trace of retrieval outcomes; the camera keeps grabbing until
teardown, so `IsGrabbing()` is true throughout. An exception out of
`RetrieveResult` is caught by `run`'s handler, which stores `str(e)` into
`self.err` and falls through to `finally`. -/
def loop (w : ℕ → Bool) (stopSet : ℕ → Bool) :
    ℕ → List GrabOutcome → GrabberState → GrabberState
  | _, [], s => s
  | i, o :: rest, s =>
    if stopSet i then s
    else
      let s1 := { s with retrievals := s.retrievals + 1 }
      match o with
      | .success t => loop w stopSet (i + 1) rest (processFrame w s1 i t)
      | .grabFailed => loop w stopSet (i + 1) rest s1
      | .timeoutExn msg => { s1 with err := some msg }
      | .failureExn msg => { s1 with err := some msg }

/-- Outcome of the setup phase of `run` before the grab loop:
`ok` — `InstantCamera(CreateFirstDevice())`, `Open`, parameter setup and
`StartGrabbing` all succeed; `createRaises` — the `InstantCamera`
construction raises, so `self.cam` is still `None`; `openRaises` — `self.cam`
was assigned but `Open()` (or a later setup call) raises. -/
inductive OpenOutcome where
  | ok
  | createRaises (msg : String)
  | openRaises (msg : String)
deriving Repr, DecidableEq

/-- The `finally:` block of `CameraGrabber.run`:
`try: if self.cam: self.cam.StopGrabbing(); self.cam.Close()
except Exception: pass`. Runs exactly once per `run`; when the handle
exists, `StopGrabbing/Close` releases it (the SDK contract of `Close`);
`closeRaises` says whether that pair raises — the bare `except: pass`
swallows the raise, so the returned state never depends on it. -/
def teardown (closeRaises : Bool) (s : GrabberState) : GrabberState :=
  let s1 := { s with teardowns := s.teardowns + 1 }
  if s1.camAssigned then { s1 with camClosed := true } else s1

/-- `CameraGrabber.run`: enumerate devices — if none, set
`self.err = "No Basler camera found"` and return (through `finally`);
otherwise create/open/configure the camera (possibly raising), run the grab
loop, and in every case execute the `finally:` teardown exactly once. -/
def run (devices : Bool) (openOut : OpenOutcome) (stopSet : ℕ → Bool)
    (outs : List GrabOutcome) (w : ℕ → Bool) (closeRaises : Bool) :
    GrabberState :=
  let body : GrabberState :=
    if devices then
      match openOut with
      | .createRaises msg => { initState with err := some msg }
      | .openRaises msg => { initState with camAssigned := true, err := some msg }
      | .ok => loop w stopSet 0 outs { initState with camAssigned := true }
    else
      { initState with err := some "No Basler camera found" }
  teardown closeRaises body

/-- Spec-level view of the terminal state of a finished session:
`Failed` when an error was recorded, `Stopped` otherwise. -/
inductive AcqState where
  | Idle
  | Running
  | Stopped
  | Failed
deriving Repr, DecidableEq

/-- Terminal state observed from a finished `run`. -/
def terminalState (s : GrabberState) : AcqState :=
  match s.err with
  | some _ => .Failed
  | none => .Stopped

/-- Python truthiness of `if grabber.err:` in `update_ui`: true exactly when
`err` is a non-empty string. -/
def errTruthy (s : GrabberState) : Bool :=
  match s.err with
  | some e => !(e == "")
  | none => false

/-- The status line `update_ui` writes into the info label. -/
def statusText (s : GrabberState) : String :=
  if errTruthy s then "[!] " ++ (s.err.getD "")
  else "Streaming… " ++ toString s.frameIndex ++ " frames saved"

/-- One `update_ui` tick of the presentation consumer: drain the queue to
the latest frame (the `while True: frame = q.get_nowait()` loop), read the
status. It mutates only the queue; `err` and `frame_index` are read-only
for the consumer. -/
def updateUI (s : GrabberState) : Option ℕ × String × GrabberState :=
  (s.q.getLast?, statusText s, { s with q := [] })

/-- The grabber state after `n` consumer ticks. -/
def readN : ℕ → GrabberState → GrabberState
  | 0, s => s
  | n + 1, s => readN n (updateUI s).2.2

/-- A `stop_event` set once at iteration `k` and never cleared
(`threading.Event` is settable once by `on_close` and never cleared here). -/
def stopFrom (k : ℕ) : ℕ → Bool := fun i => k ≤ i

/-- Whether the device handle is released: either it was never assigned, or
the teardown close ran on it. -/
def handleReleased (s : GrabberState) : Bool :=
  !s.camAssigned || s.camClosed

/-- Invariant tying the ghost log of executed save sites to the
`frame_index` counter and `last_save_time` timestamp: the logged indices
are exactly `0, 1, ..., frame_index - 1` in order, the logged file names
follow `frameFilename`, consecutive logged times are at least
`TARGET_SAVE_INTERVAL` apart, and the last logged time (if any) equals
`last_save_time`. -/
def SavedInv (s : GrabberState) : Prop :=
  s.saved.map SavedFrame.index = List.range s.frameIndex ∧
  s.saved.length = s.frameIndex ∧
  s.saved.map SavedFrame.filename =
    (List.range s.frameIndex).map frameFilename ∧
  List.Chain' (fun a b => TARGET_SAVE_INTERVAL ≤ b.time - a.time) s.saved ∧
  ∀ x ∈ s.saved.getLast?, x.time = s.lastSaveTime

/-- Forget the recorded `cv2.imwrite` result. -/
def scrubFrame (f : SavedFrame) : SavedFrame := { f with writeOk := false }

/-- Observation of a grabber state up to the recorded `cv2.imwrite`
results: everything the program's control flow and its consumers can
depend on. -/
def scrubObs (s : GrabberState) :
    List ℕ × Option String × ℕ × ℚ × List SavedFrame × Bool × Bool × ℕ × ℕ :=
  (s.q, s.err, s.frameIndex, s.lastSaveTime, s.saved.map scrubFrame,
    s.camAssigned, s.camClosed, s.retrievals, s.teardowns)

/-! ### Field-preservation lemmas -/

theorem processFrame_err (w : ℕ → Bool) (s : GrabberState) (fid : ℕ) (t : ℚ) :
    (processFrame w s fid t).err = s.err := by
  simp only [processFrame]
  split <;> rfl

theorem processFrame_teardowns (w : ℕ → Bool) (s : GrabberState) (fid : ℕ)
    (t : ℚ) : (processFrame w s fid t).teardowns = s.teardowns := by
  simp only [processFrame]
  split <;> rfl

theorem processFrame_retrievals (w : ℕ → Bool) (s : GrabberState) (fid : ℕ)
    (t : ℚ) : (processFrame w s fid t).retrievals = s.retrievals := by
  simp only [processFrame]
  split <;> rfl

theorem processFrame_camAssigned (w : ℕ → Bool) (s : GrabberState) (fid : ℕ)
    (t : ℚ) : (processFrame w s fid t).camAssigned = s.camAssigned := by
  simp only [processFrame]
  split <;> rfl

theorem processFrame_camClosed (w : ℕ → Bool) (s : GrabberState) (fid : ℕ)
    (t : ℚ) : (processFrame w s fid t).camClosed = s.camClosed := by
  simp only [processFrame]
  split <;> rfl

theorem processFrame_q (w : ℕ → Bool) (s : GrabberState) (fid : ℕ) (t : ℚ) :
    (processFrame w s fid t).q = putNowait 2 s.q fid := by
  simp only [processFrame]
  split <;> rfl

/-! Unfolding equations for `loop`. -/

theorem loop_nil (w : ℕ → Bool) (st : ℕ → Bool) (i : ℕ) (s : GrabberState) :
    loop w st i [] s = s := rfl

theorem loop_cons_stop (w : ℕ → Bool) (st : ℕ → Bool) (i : ℕ)
    (o : GrabOutcome) (rest : List GrabOutcome) (s : GrabberState)
    (h : st i = true) : loop w st i (o :: rest) s = s := by
  simp only [loop, h, if_true]

theorem loop_cons_success (w : ℕ → Bool) (st : ℕ → Bool) (i : ℕ) (t : ℚ)
    (rest : List GrabOutcome) (s : GrabberState) (h : st i = false) :
    loop w st i (.success t :: rest) s =
      loop w st (i + 1) rest
        (processFrame w { s with retrievals := s.retrievals + 1 } i t) := by
  simp only [loop, h]
  rfl

theorem loop_cons_grabFailed (w : ℕ → Bool) (st : ℕ → Bool) (i : ℕ)
    (rest : List GrabOutcome) (s : GrabberState) (h : st i = false) :
    loop w st i (.grabFailed :: rest) s =
      loop w st (i + 1) rest { s with retrievals := s.retrievals + 1 } := by
  simp only [loop, h]
  rfl

theorem loop_cons_timeoutExn (w : ℕ → Bool) (st : ℕ → Bool) (i : ℕ)
    (msg : String) (rest : List GrabOutcome) (s : GrabberState)
    (h : st i = false) :
    loop w st i (.timeoutExn msg :: rest) s =
      { s with retrievals := s.retrievals + 1, err := some msg } := by
  simp only [loop, h]
  rfl

theorem loop_cons_failureExn (w : ℕ → Bool) (st : ℕ → Bool) (i : ℕ)
    (msg : String) (rest : List GrabOutcome) (s : GrabberState)
    (h : st i = false) :
    loop w st i (.failureExn msg :: rest) s =
      { s with retrievals := s.retrievals + 1, err := some msg } := by
  simp only [loop, h]
  rfl

theorem loop_teardowns (w : ℕ → Bool) (st : ℕ → Bool)
    (outs : List GrabOutcome) :
    ∀ (i : ℕ) (s : GrabberState),
      (loop w st i outs s).teardowns = s.teardowns := by
  induction outs with
  | nil => intro i s; rfl
  | cons o rest ih =>
    intro i s
    cases h : st i with
    | true => rw [loop_cons_stop w st i o rest s h]
    | false =>
      cases o with
      | success t =>
        rw [loop_cons_success w st i t rest s h, ih, processFrame_teardowns]
      | grabFailed => rw [loop_cons_grabFailed w st i rest s h, ih]
      | timeoutExn msg => rw [loop_cons_timeoutExn w st i msg rest s h]
      | failureExn msg => rw [loop_cons_failureExn w st i msg rest s h]

theorem loop_camAssigned (w : ℕ → Bool) (st : ℕ → Bool)
    (outs : List GrabOutcome) :
    ∀ (i : ℕ) (s : GrabberState),
      (loop w st i outs s).camAssigned = s.camAssigned := by
  induction outs with
  | nil => intro i s; rfl
  | cons o rest ih =>
    intro i s
    cases h : st i with
    | true => rw [loop_cons_stop w st i o rest s h]
    | false =>
      cases o with
      | success t =>
        rw [loop_cons_success w st i t rest s h, ih, processFrame_camAssigned]
      | grabFailed => rw [loop_cons_grabFailed w st i rest s h, ih]
      | timeoutExn msg => rw [loop_cons_timeoutExn w st i msg rest s h]
      | failureExn msg => rw [loop_cons_failureExn w st i msg rest s h]

theorem loop_camClosed (w : ℕ → Bool) (st : ℕ → Bool)
    (outs : List GrabOutcome) :
    ∀ (i : ℕ) (s : GrabberState),
      (loop w st i outs s).camClosed = s.camClosed := by
  induction outs with
  | nil => intro i s; rfl
  | cons o rest ih =>
    intro i s
    cases h : st i with
    | true => rw [loop_cons_stop w st i o rest s h]
    | false =>
      cases o with
      | success t =>
        rw [loop_cons_success w st i t rest s h, ih, processFrame_camClosed]
      | grabFailed => rw [loop_cons_grabFailed w st i rest s h, ih]
      | timeoutExn msg => rw [loop_cons_timeoutExn w st i msg rest s h]
      | failureExn msg => rw [loop_cons_failureExn w st i msg rest s h]

/-- The grab loop never clears a recorded error: if the error is absent
after the loop, it was absent before. -/
theorem loop_err_latch (w : ℕ → Bool) (st : ℕ → Bool)
    (outs : List GrabOutcome) :
    ∀ (i : ℕ) (s : GrabberState),
      (loop w st i outs s).err = none → s.err = none := by
  induction outs with
  | nil => intro i s h; exact h
  | cons o rest ih =>
    intro i s h
    cases hst : st i with
    | true => rw [loop_cons_stop w st i o rest s hst] at h; exact h
    | false =>
      cases o with
      | success t =>
        rw [loop_cons_success w st i t rest s hst] at h
        have h2 := ih (i + 1) _ h
        rw [processFrame_err] at h2
        exact h2
      | grabFailed =>
        rw [loop_cons_grabFailed w st i rest s hst] at h
        have h2 := ih (i + 1) _ h
        exact h2
      | timeoutExn msg =>
        rw [loop_cons_timeoutExn w st i msg rest s hst] at h
        simp at h
      | failureExn msg =>
        rw [loop_cons_failureExn w st i msg rest s hst] at h
        simp at h

theorem teardown_err (cr : Bool) (s : GrabberState) :
    (teardown cr s).err = s.err := by
  simp only [teardown]
  split <;> rfl

theorem teardown_frameIndex (cr : Bool) (s : GrabberState) :
    (teardown cr s).frameIndex = s.frameIndex := by
  simp only [teardown]
  split <;> rfl

theorem teardown_saved (cr : Bool) (s : GrabberState) :
    (teardown cr s).saved = s.saved := by
  simp only [teardown]
  split <;> rfl

theorem teardown_lastSaveTime (cr : Bool) (s : GrabberState) :
    (teardown cr s).lastSaveTime = s.lastSaveTime := by
  simp only [teardown]
  split <;> rfl

theorem teardown_retrievals (cr : Bool) (s : GrabberState) :
    (teardown cr s).retrievals = s.retrievals := by
  simp only [teardown]
  split <;> rfl

theorem teardown_teardowns (cr : Bool) (s : GrabberState) :
    (teardown cr s).teardowns = s.teardowns + 1 := by
  simp only [teardown]
  split <;> rfl

theorem teardown_released (cr : Bool) (s : GrabberState) :
    handleReleased (teardown cr s) = true := by
  simp only [teardown, handleReleased]
  split <;> simp_all

/-! ### Characterization of the persistence path -/

theorem processFrame_eq_pos (w : ℕ → Bool) (s : GrabberState) (fid : ℕ)
    (t : ℚ) (h : TARGET_SAVE_INTERVAL ≤ t - s.lastSaveTime) :
    processFrame w s fid t =
      { s with
        q := putNowait 2 s.q fid
        saved := s.saved ++
          [⟨s.frameIndex, t, frameFilename s.frameIndex, w s.frameIndex⟩]
        lastSaveTime := t
        frameIndex := s.frameIndex + 1 } := by
  simp only [processFrame]
  split
  · rfl
  · exact absurd h (by assumption)

theorem processFrame_eq_neg (w : ℕ → Bool) (s : GrabberState) (fid : ℕ)
    (t : ℚ) (h : ¬ TARGET_SAVE_INTERVAL ≤ t - s.lastSaveTime) :
    processFrame w s fid t = { s with q := putNowait 2 s.q fid } := by
  simp only [processFrame]
  split
  · exact absurd (by assumption) h
  · rfl

theorem savedInv_init : SavedInv initState := by
  refine ⟨rfl, rfl, rfl, List.chain'_nil, ?_⟩
  intro x hx
  simp [initState] at hx

theorem processFrame_savedInv (w : ℕ → Bool) (s : GrabberState) (fid : ℕ)
    (t : ℚ) (h : SavedInv s) : SavedInv (processFrame w s fid t) := by
  obtain ⟨h1, h2, h3, h4, h5⟩ := h
  by_cases hc : TARGET_SAVE_INTERVAL ≤ t - s.lastSaveTime
  · rw [processFrame_eq_pos w s fid t hc]
    refine ⟨?_, ?_, ?_, ?_, ?_⟩
    · simp only [List.map_append, List.map_cons, List.map_nil, h1,
        List.range_succ]
    · simp [h2]
    · simp only [List.map_append, List.map_cons, List.map_nil, h3,
        List.range_succ, List.map_append]
    · rw [List.chain'_append]
      refine ⟨h4, List.chain'_singleton _, ?_⟩
      intro x hx y hy
      simp only [List.head?_cons, Option.mem_def, Option.some.injEq] at hy
      subst hy
      have hx' := h5 x hx
      simpa [hx'] using hc
    · intro x hx
      rw [List.getLast?_concat] at hx
      simp only [Option.mem_def, Option.some.injEq] at hx
      subst hx
      rfl
  · rw [processFrame_eq_neg w s fid t hc]
    exact ⟨h1, h2, h3, h4, h5⟩

theorem loop_savedInv (w : ℕ → Bool) (st : ℕ → Bool)
    (outs : List GrabOutcome) :
    ∀ (i : ℕ) (s : GrabberState), SavedInv s → SavedInv (loop w st i outs s) := by
  induction outs with
  | nil => intro i s h; exact h
  | cons o rest ih =>
    intro i s h
    have hstep : SavedInv { s with retrievals := s.retrievals + 1 } := h
    cases hst : st i with
    | true => rw [loop_cons_stop w st i o rest s hst]; exact h
    | false =>
      cases o with
      | success t =>
        rw [loop_cons_success w st i t rest s hst]
        exact ih (i + 1) _ (processFrame_savedInv w _ i t hstep)
      | grabFailed =>
        rw [loop_cons_grabFailed w st i rest s hst]
        exact ih (i + 1) _ hstep
      | timeoutExn msg => rw [loop_cons_timeoutExn w st i msg rest s hst]; exact h
      | failureExn msg => rw [loop_cons_failureExn w st i msg rest s hst]; exact h

theorem teardown_savedInv (cr : Bool) (s : GrabberState) (h : SavedInv s) :
    SavedInv (teardown cr s) := by
  simp only [teardown]
  split <;> exact h

/-- Every finished `run` satisfies the persistence invariant. -/
theorem run_savedInv (devices : Bool) (openOut : OpenOutcome)
    (stopSet : ℕ → Bool) (outs : List GrabOutcome) (w : ℕ → Bool)
    (cr : Bool) : SavedInv (run devices openOut stopSet outs w cr) := by
  cases devices
  · exact teardown_savedInv cr _ savedInv_init
  · cases openOut
    · exact teardown_savedInv cr _
        (loop_savedInv w stopSet outs 0 _ savedInv_init)
    · exact teardown_savedInv cr _ savedInv_init
    · exact teardown_savedInv cr _ savedInv_init

/-! ### Bounded preview buffer -/

theorem putNowait_length_le (q : List ℕ) (x : ℕ) (h : q.length ≤ 2) :
    (putNowait 2 q x).length ≤ 2 := by
  unfold putNowait
  split
  · simp only [List.length_append, List.length_cons, List.length_nil]
    omega
  · exact h

/-- Folding `put_nowait` over any insertion sequence from a buffer holding
at most 2 frames keeps the earliest frames and fills the remaining room. -/
theorem foldl_putNowait (xs : List ℕ) :
    ∀ acc : List ℕ, acc.length ≤ 2 →
      xs.foldl (putNowait 2) acc = acc ++ xs.take (2 - acc.length) := by
  induction xs with
  | nil => intro acc h; simp
  | cons x xs ih =>
    intro acc h
    by_cases hlt : acc.length < 2
    · have hput : putNowait 2 acc x = acc ++ [x] := by
        simp [putNowait, hlt]
      rw [List.foldl_cons, hput, ih (acc ++ [x]) (by simp; omega)]
      have h3 : (acc ++ [x]).length = acc.length + 1 := by simp
      rw [h3]
      have h2 : 2 - acc.length = (2 - (acc.length + 1)) + 1 := by omega
      rw [h2, List.take_succ_cons, List.append_assoc]
      rfl
    · have hput : putNowait 2 acc x = acc := by
        simp [putNowait, hlt]
      have h2 : 2 - acc.length = 0 := by omega
      rw [List.foldl_cons, hput, ih acc h, h2]
      simp

theorem processFrame_qlen (w : ℕ → Bool) (s : GrabberState) (fid : ℕ)
    (t : ℚ) (h : s.q.length ≤ 2) : (processFrame w s fid t).q.length ≤ 2 := by
  rw [processFrame_q]
  exact putNowait_length_le s.q fid h

theorem teardown_q (cr : Bool) (s : GrabberState) :
    (teardown cr s).q = s.q := by
  simp only [teardown]
  split <;> rfl

theorem loop_qlen (w : ℕ → Bool) (st : ℕ → Bool) (outs : List GrabOutcome) :
    ∀ (i : ℕ) (s : GrabberState), s.q.length ≤ 2 →
      (loop w st i outs s).q.length ≤ 2 := by
  induction outs with
  | nil => intro i s h; exact h
  | cons o rest ih =>
    intro i s h
    cases hst : st i with
    | true => rw [loop_cons_stop w st i o rest s hst]; exact h
    | false =>
      cases o with
      | success t =>
        rw [loop_cons_success w st i t rest s hst]
        exact ih (i + 1) _ (processFrame_qlen w _ i t h)
      | grabFailed =>
        rw [loop_cons_grabFailed w st i rest s hst]
        exact ih (i + 1) _ h
      | timeoutExn msg => rw [loop_cons_timeoutExn w st i msg rest s hst]; exact h
      | failureExn msg => rw [loop_cons_failureExn w st i msg rest s hst]; exact h

/-- The preview queue never exceeds its configured capacity of 2. -/
theorem run_qlen (devices : Bool) (openOut : OpenOutcome)
    (stopSet : ℕ → Bool) (outs : List GrabOutcome) (w : ℕ → Bool)
    (cr : Bool) : (run devices openOut stopSet outs w cr).q.length ≤ 2 := by
  cases devices
  · rw [show run false openOut stopSet outs w cr =
      teardown cr { initState with err := some "No Basler camera found" }
      from rfl, teardown_q]
    exact Nat.zero_le 2
  · cases openOut
    · rw [show run true .ok stopSet outs w cr =
        teardown cr (loop w stopSet 0 outs { initState with camAssigned := true })
        from rfl, teardown_q]
      exact loop_qlen w stopSet outs 0 _ (Nat.zero_le 2)
    · rename_i msg
      rw [show run true (.createRaises msg) stopSet outs w cr =
        teardown cr { initState with err := some msg } from rfl, teardown_q]
      exact Nat.zero_le 2
    · rename_i msg
      rw [show run true (.openRaises msg) stopSet outs w cr =
        teardown cr { initState with camAssigned := true, err := some msg }
        from rfl, teardown_q]
      exact Nat.zero_le 2

/-! ### The `cv2.imwrite` result is discarded -/

theorem scrubObs_fields (s s' : GrabberState) (h : scrubObs s = scrubObs s') :
    s.q = s'.q ∧ s.err = s'.err ∧ s.frameIndex = s'.frameIndex ∧
    s.lastSaveTime = s'.lastSaveTime ∧
    s.saved.map scrubFrame = s'.saved.map scrubFrame ∧
    s.camAssigned = s'.camAssigned ∧ s.camClosed = s'.camClosed ∧
    s.retrievals = s'.retrievals ∧ s.teardowns = s'.teardowns := by
  have h1 := congrArg Prod.fst h
  have h2 := congrArg (fun p => p.2.1) h
  have h3 := congrArg (fun p => p.2.2.1) h
  have h4 := congrArg (fun p => p.2.2.2.1) h
  have h5 := congrArg (fun p => p.2.2.2.2.1) h
  have h6 := congrArg (fun p => p.2.2.2.2.2.1) h
  have h7 := congrArg (fun p => p.2.2.2.2.2.2.1) h
  have h8 := congrArg (fun p => p.2.2.2.2.2.2.2.1) h
  have h9 := congrArg (fun p => p.2.2.2.2.2.2.2.2) h
  exact ⟨h1, h2, h3, h4, h5, h6, h7, h8, h9⟩

theorem processFrame_scrubObs (w w' : ℕ → Bool) (s s' : GrabberState)
    (fid : ℕ) (t : ℚ) (h : scrubObs s = scrubObs s') :
    scrubObs (processFrame w s fid t) = scrubObs (processFrame w' s' fid t) := by
  obtain ⟨hq, he, hf, hl, hs, hca, hcc, hr, ht⟩ := scrubObs_fields s s' h
  by_cases hc : TARGET_SAVE_INTERVAL ≤ t - s.lastSaveTime
  · rw [processFrame_eq_pos w s fid t hc,
      processFrame_eq_pos w' s' fid t (hl ▸ hc)]
    simp only [scrubObs, List.map_append, List.map_cons, List.map_nil,
      scrubFrame, hq, he, hf, hl, hs, hca, hcc, hr, ht]
  · rw [processFrame_eq_neg w s fid t hc,
      processFrame_eq_neg w' s' fid t (hl ▸ hc)]
    simp only [scrubObs, hq, he, hf, hl, hs, hca, hcc, hr, ht]

theorem loop_scrubObs (w w' : ℕ → Bool) (st : ℕ → Bool)
    (outs : List GrabOutcome) :
    ∀ (i : ℕ) (s s' : GrabberState), scrubObs s = scrubObs s' →
      scrubObs (loop w st i outs s) = scrubObs (loop w' st i outs s') := by
  induction outs with
  | nil => intro i s s' h; exact h
  | cons o rest ih =>
    intro i s s' h
    obtain ⟨hq, he, hf, hl, hs, hca, hcc, hr, ht⟩ := scrubObs_fields s s' h
    have hstep : scrubObs { s with retrievals := s.retrievals + 1 } =
        scrubObs { s' with retrievals := s'.retrievals + 1 } := by
      simp only [scrubObs, hq, he, hf, hl, hs, hca, hcc, hr, ht]
    cases hst : st i with
    | true =>
      rw [loop_cons_stop w st i o rest s hst,
        loop_cons_stop w' st i o rest s' hst]
      exact h
    | false =>
      cases o with
      | success t =>
        rw [loop_cons_success w st i t rest s hst,
          loop_cons_success w' st i t rest s' hst]
        exact ih (i + 1) _ _ (processFrame_scrubObs w w' _ _ i t hstep)
      | grabFailed =>
        rw [loop_cons_grabFailed w st i rest s hst,
          loop_cons_grabFailed w' st i rest s' hst]
        exact ih (i + 1) _ _ hstep
      | timeoutExn msg =>
        rw [loop_cons_timeoutExn w st i msg rest s hst,
          loop_cons_timeoutExn w' st i msg rest s' hst]
        simp only [scrubObs, hq, he, hf, hl, hs, hca, hcc, hr, ht]
      | failureExn msg =>
        rw [loop_cons_failureExn w st i msg rest s hst,
          loop_cons_failureExn w' st i msg rest s' hst]
        simp only [scrubObs, hq, he, hf, hl, hs, hca, hcc, hr, ht]

theorem teardown_scrubObs (cr cr' : Bool) (s s' : GrabberState)
    (h : scrubObs s = scrubObs s') :
    scrubObs (teardown cr s) = scrubObs (teardown cr' s') := by
  obtain ⟨hq, he, hf, hl, hs, hca, hcc, hr, ht⟩ := scrubObs_fields s s' h
  simp only [teardown]
  split <;> split <;>
    simp_all only [scrubObs, hq, he, hf, hl, hs, hca, hcc, hr, ht] <;>
    simp_all

/-- The final state of `run`, up to the recorded (and discarded)
`cv2.imwrite` results, does not depend on whether the writes succeeded. -/
theorem run_scrubObs (devices : Bool) (openOut : OpenOutcome)
    (stopSet : ℕ → Bool) (outs : List GrabOutcome) (cr : Bool)
    (w w' : ℕ → Bool) :
    scrubObs (run devices openOut stopSet outs w cr) =
      scrubObs (run devices openOut stopSet outs w' cr) := by
  cases devices
  · rfl
  · cases openOut
    · exact teardown_scrubObs cr cr _ _
        (loop_scrubObs w w' stopSet outs 0 _ _ rfl)
    · rfl
    · rfl

/-! ### Unfolding equations for `run`, and cancellation bounds -/

theorem run_noDevices (openOut : OpenOutcome) (stopSet : ℕ → Bool)
    (outs : List GrabOutcome) (w : ℕ → Bool) (cr : Bool) :
    run false openOut stopSet outs w cr =
      teardown cr { initState with err := some "No Basler camera found" } := rfl

theorem run_ok (stopSet : ℕ → Bool) (outs : List GrabOutcome) (w : ℕ → Bool)
    (cr : Bool) :
    run true .ok stopSet outs w cr =
      teardown cr
        (loop w stopSet 0 outs { initState with camAssigned := true }) := rfl

theorem run_createRaises (msg : String) (stopSet : ℕ → Bool)
    (outs : List GrabOutcome) (w : ℕ → Bool) (cr : Bool) :
    run true (.createRaises msg) stopSet outs w cr =
      teardown cr { initState with err := some msg } := rfl

theorem run_openRaises (msg : String) (stopSet : ℕ → Bool)
    (outs : List GrabOutcome) (w : ℕ → Bool) (cr : Bool) :
    run true (.openRaises msg) stopSet outs w cr =
      teardown cr { initState with camAssigned := true, err := some msg } := rfl

/-- With the cancellation flag set from iteration `k` on, a loop run whose
first `k - i` outcomes raise no exception keeps `err` unchanged and
performs at most `k - i` further retrievals. -/
theorem loop_stopFrom_bound (w : ℕ → Bool) (k : ℕ) (outs : List GrabOutcome) :
    ∀ (i : ℕ) (s : GrabberState),
      (∀ o ∈ outs.take (k - i), o.isExn = false) →
      (loop w (stopFrom k) i outs s).err = s.err ∧
      (loop w (stopFrom k) i outs s).retrievals ≤ s.retrievals + (k - i) := by
  induction outs with
  | nil => intro i s _; exact ⟨rfl, Nat.le_add_right _ _⟩
  | cons o rest ih =>
    intro i s h
    by_cases hki : k ≤ i
    · have hst : stopFrom k i = true := by
        simp [stopFrom, hki]
      rw [loop_cons_stop w (stopFrom k) i o rest s hst]
      exact ⟨rfl, Nat.le_add_right _ _⟩
    · have hst : stopFrom k i = false := by
        simp only [stopFrom, decide_eq_false_iff_not]
        omega
      have htk : k - i = (k - (i + 1)) + 1 := by omega
      have hoex : o.isExn = false := by
        apply h o
        rw [htk, List.take_succ_cons]
        exact List.mem_cons_self o _
      have hrest : ∀ o' ∈ rest.take (k - (i + 1)), o'.isExn = false := by
        intro o' ho'
        apply h o'
        rw [htk, List.take_succ_cons]
        exact List.mem_cons_of_mem o ho'
      cases o with
      | success t =>
        rw [loop_cons_success w (stopFrom k) i t rest s hst]
        obtain ⟨h1, h2⟩ := ih (i + 1) _ hrest
        rw [processFrame_err] at h1
        rw [processFrame_retrievals] at h2
        constructor
        · exact h1
        · refine h2.trans ?_
          simp only [GrabberState.retrievals] at *
          omega
      | grabFailed =>
        rw [loop_cons_grabFailed w (stopFrom k) i rest s hst]
        obtain ⟨h1, h2⟩ := ih (i + 1) _ hrest
        constructor
        · exact h1
        · refine h2.trans ?_
          simp only [GrabberState.retrievals] at *
          omega
      | timeoutExn msg => simp [GrabOutcome.isExn] at hoex
      | failureExn msg => simp [GrabOutcome.isExn] at hoex

/-- `terminalState` is `Failed` exactly when an error was recorded. -/
theorem terminalState_failed_iff (s : GrabberState) :
    terminalState s = .Failed ↔ s.err ≠ none := by
  cases h : s.err <;> simp [terminalState, h]

theorem errTruthy_of_err (s : GrabberState) (msg : String)
    (h : s.err = some msg) (hne : msg ≠ "") : errTruthy s = true := by
  simp [errTruthy, h, hne]

/-- Consumer ticks change only the queue: `err` is read-only for the
consumer. -/
theorem readN_err (n : ℕ) (s : GrabberState) : (readN n s).err = s.err := by
  induction n generalizing s with
  | zero => rfl
  | succ n ih => exact (ih _).trans rfl

/-- Consumer ticks change only the queue: `frame_index` is read-only for the
consumer. -/
theorem readN_frameIndex (n : ℕ) (s : GrabberState) :
    (readN n s).frameIndex = s.frameIndex := by
  induction n generalizing s with
  | zero => rfl
  | succ n ih => exact (ih _).trans rfl

/-! ### Claim theorems -/

/-- C1, counterexample: the claim says a retrieval timeout is swallowed
(loop continues, no error recorded, state stays Running). In the source,
`RetrieveResult(5000, pylon.TimeoutHandling_ThrowException)` raises on
timeout; the exception is caught by `run`'s handler. Concretely, with a
timeout at iteration 0 followed by an available frame: an error is
recorded, only one retrieval ever happens (the loop did not continue), and
the session terminates in `Failed`. -/
theorem C1_counterexample :
    (run true .ok (fun _ => false) [.timeoutExn "t0", .success 1]
        (fun _ => true) false).err = some "t0" ∧
    (run true .ok (fun _ => false) [.timeoutExn "t0", .success 1]
        (fun _ => true) false).retrievals = 1 ∧
    terminalState (run true .ok (fun _ => false) [.timeoutExn "t0", .success 1]
        (fun _ => true) false) = .Failed :=
  ⟨rfl, rfl, rfl⟩

/-- C1 (amended): a retrieval timeout in the Running state is NOT swallowed:
the raised timeout exception is caught at the `run` boundary, its message is
recorded as the session error, no further retrieval is performed, the
session leaves Running to the `Failed` terminal state, and teardown runs. -/
theorem C1_timeout_fatal (msg : String) (rest : List GrabOutcome)
    (stopSet : ℕ → Bool) (w : ℕ → Bool) (cr : Bool) (h0 : stopSet 0 = false) :
    (∀ (w' : ℕ → Bool) (i : ℕ) (s : GrabberState), stopSet i = false →
      loop w' stopSet i (.timeoutExn msg :: rest) s =
        { s with retrievals := s.retrievals + 1, err := some msg }) ∧
    (run true .ok stopSet (.timeoutExn msg :: rest) w cr).err = some msg ∧
    (run true .ok stopSet (.timeoutExn msg :: rest) w cr).retrievals = 1 ∧
    terminalState (run true .ok stopSet (.timeoutExn msg :: rest) w cr) =
      .Failed ∧
    (run true .ok stopSet (.timeoutExn msg :: rest) w cr).teardowns = 1 := by
  refine ⟨fun w' i s hi => loop_cons_timeoutExn w' stopSet i msg rest s hi,
    ?_, ?_, ?_, ?_⟩ <;>
  · rw [run_ok, loop_cons_timeoutExn w stopSet 0 msg rest _ h0]
    rfl

/-- C1 witness: the amended behavior at a concrete input. -/
theorem C1_timeout_fatal_witness :
    (run true .ok (fun _ => false) [.timeoutExn "Grab timed out."]
        (fun _ => true) false).err = some "Grab timed out." ∧
    (run true .ok (fun _ => false) [.timeoutExn "Grab timed out."]
        (fun _ => true) false).retrievals = 1 ∧
    terminalState (run true .ok (fun _ => false) [.timeoutExn "Grab timed out."]
        (fun _ => true) false) = .Failed ∧
    (run true .ok (fun _ => false) [.timeoutExn "Grab timed out."]
        (fun _ => true) false).teardowns = 1 :=
  (C1_timeout_fatal "Grab timed out." [] (fun _ => false) (fun _ => true)
    false rfl).2

/-- C2: on every exit path of `run` (no device found, setup raising before
or after the handle was assigned, device failure, timeout, or cooperative
stop), the `finally:` teardown runs exactly once, the device handle ends up
released, and the result of `run` does not depend on whether the
`StopGrabbing/Close` pair raises — that raise is swallowed, never
propagated. -/
theorem C2_teardown_exactly_once (devices : Bool) (openOut : OpenOutcome)
    (stopSet : ℕ → Bool) (outs : List GrabOutcome) (w : ℕ → Bool)
    (closeRaises closeRaises' : Bool) :
    (run devices openOut stopSet outs w closeRaises).teardowns = 1 ∧
    handleReleased (run devices openOut stopSet outs w closeRaises) = true ∧
    run devices openOut stopSet outs w closeRaises =
      run devices openOut stopSet outs w closeRaises' := by
  refine ⟨?_, ?_, rfl⟩
  · cases devices
    · rw [run_noDevices, teardown_teardowns]
      rfl
    · cases openOut
      · rw [run_ok, teardown_teardowns, loop_teardowns]
        rfl
      · rename_i msg
        rw [run_createRaises, teardown_teardowns]
        rfl
      · rename_i msg
        rw [run_openRaises, teardown_teardowns]
        rfl
  · cases devices
    · rw [run_noDevices]
      exact teardown_released _ _
    · cases openOut
      · rw [run_ok]
        exact teardown_released _ _
      · rename_i msg
        rw [run_createRaises]
        exact teardown_released _ _
      · rename_i msg
        rw [run_openRaises]
        exact teardown_released _ _

/-- C3: the persistence path is a greedy fixed-rate sampler. A retrieved
frame is persisted if and only if the elapsed time since the last persisted
timestamp is at least `TARGET_SAVE_INTERVAL`; on persistence the timestamp
becomes the current time and the counter increments by one, otherwise both
are unchanged. Consequently, in every run, consecutive persisted frames
carry timestamps at least the target interval apart. -/
theorem C3_greedy_fixed_rate_sampler :
    (∀ (w : ℕ → Bool) (s : GrabberState) (fid : ℕ) (t : ℚ),
      (processFrame w s fid t).frameIndex =
        (if TARGET_SAVE_INTERVAL ≤ t - s.lastSaveTime then s.frameIndex + 1
          else s.frameIndex) ∧
      (processFrame w s fid t).lastSaveTime =
        (if TARGET_SAVE_INTERVAL ≤ t - s.lastSaveTime then t
          else s.lastSaveTime) ∧
      (processFrame w s fid t).saved =
        (if TARGET_SAVE_INTERVAL ≤ t - s.lastSaveTime then
          s.saved ++
            [⟨s.frameIndex, t, frameFilename s.frameIndex, w s.frameIndex⟩]
          else s.saved)) ∧
    (∀ (devices : Bool) (openOut : OpenOutcome) (stopSet : ℕ → Bool)
      (outs : List GrabOutcome) (w : ℕ → Bool) (cr : Bool),
      List.Chain' (fun a b => TARGET_SAVE_INTERVAL ≤ b.time - a.time)
        (run devices openOut stopSet outs w cr).saved) := by
  constructor
  · intro w s fid t
    by_cases hc : TARGET_SAVE_INTERVAL ≤ t - s.lastSaveTime
    · rw [processFrame_eq_pos w s fid t hc]
      simp [hc]
    · rw [processFrame_eq_neg w s fid t hc]
      simp [hc]
  · intro devices openOut stopSet outs w cr
    exact (run_savedInv devices openOut stopSet outs w cr).2.2.2.1

/-- C4: the capacity-2 preview buffer never blocks the producer
(`putNowait` is a total function), never holds more than 2 frames at any
point of any run, and a sequence of `N` insertion attempts with no
intervening drain retains exactly the `min(N, 2)` earliest frames in
insertion order — the newest attempt is silently rejected when full. -/
theorem C4_preview_buffer_drop_newest :
    (∀ xs : List ℕ,
      xs.foldl (putNowait 2) [] = xs.take 2 ∧
      (xs.foldl (putNowait 2) []).length = min xs.length 2) ∧
    (∀ (devices : Bool) (openOut : OpenOutcome) (stopSet : ℕ → Bool)
      (outs : List GrabOutcome) (w : ℕ → Bool) (cr : Bool),
      (run devices openOut stopSet outs w cr).q.length ≤ 2) := by
  constructor
  · intro xs
    have h := foldl_putNowait xs [] (by simp)
    simp only [List.length_nil, Nat.sub_zero, List.nil_append] at h
    refine ⟨h, ?_⟩
    rw [h, List.length_take]
    exact Nat.min_comm 2 xs.length
  · exact run_qlen

/-- C5: when no compatible device is present at startup, `run` records the
(non-empty) error "No Basler camera found" and persists nothing; every
subsequent consumer read observes the non-empty error text, the `[!]`
status line, and a saved-frame counter equal to zero; the session
terminates `Failed`. -/
theorem C5_no_device_reported (openOut : OpenOutcome) (stopSet : ℕ → Bool)
    (outs : List GrabOutcome) (w : ℕ → Bool) (cr : Bool) (n : ℕ) :
    (run false openOut stopSet outs w cr).err =
      some "No Basler camera found" ∧
    (run false openOut stopSet outs w cr).frameIndex = 0 ∧
    (readN n (run false openOut stopSet outs w cr)).err =
      some "No Basler camera found" ∧
    (readN n (run false openOut stopSet outs w cr)).frameIndex = 0 ∧
    errTruthy (readN n (run false openOut stopSet outs w cr)) = true ∧
    statusText (readN n (run false openOut stopSet outs w cr)) =
      "[!] No Basler camera found" ∧
    terminalState (run false openOut stopSet outs w cr) = .Failed := by
  have he : (run false openOut stopSet outs w cr).err =
      some "No Basler camera found" := by
    rw [run_noDevices, teardown_err]
  have hrn : (readN n (run false openOut stopSet outs w cr)).err =
      some "No Basler camera found" := by
    rw [readN_err]
    exact he
  have hf : (run false openOut stopSet outs w cr).frameIndex = 0 := by
    rw [run_noDevices, teardown_frameIndex]
    rfl
  have htr : errTruthy (readN n (run false openOut stopSet outs w cr)) =
      true := errTruthy_of_err _ _ hrn (by decide)
  refine ⟨he, hf, hrn, ?_, htr, ?_, ?_⟩
  · rw [readN_frameIndex]
    exact hf
  · simp [statusText, htr, hrn]
  · rw [terminalState_failed_iff, he]
    simp

/-- C6: within one run session, the indices of saved files are exactly
`0, 1, 2, ...` in persistence order — strictly increasing, no repeats,
starting at 0 — and each saved file is named `frame_{index:06d}.jpg`
(zero-padded six-digit index, as witnessed on concrete indices). -/
theorem C6_monotone_file_indices (devices : Bool) (openOut : OpenOutcome)
    (stopSet : ℕ → Bool) (outs : List GrabOutcome) (w : ℕ → Bool)
    (cr : Bool) :
    (run devices openOut stopSet outs w cr).saved.map SavedFrame.index =
      List.range (run devices openOut stopSet outs w cr).saved.length ∧
    ((run devices openOut stopSet outs w cr).saved.map
        SavedFrame.index).Pairwise (· < ·) ∧
    (run devices openOut stopSet outs w cr).frameIndex =
      (run devices openOut stopSet outs w cr).saved.length ∧
    (run devices openOut stopSet outs w cr).saved.map SavedFrame.filename =
      (List.range (run devices openOut stopSet outs w cr).saved.length).map
        frameFilename ∧
    frameFilename 0 = "frame_000000.jpg" ∧
    frameFilename 123 = "frame_000123.jpg" := by
  obtain ⟨h1, h2, h3, _, _⟩ := run_savedInv devices openOut stopSet outs w cr
  refine ⟨?_, ?_, h2.symm, ?_, rfl, rfl⟩
  · rw [h2]
    exact h1
  · rw [h1]
    exact List.pairwise_lt_range _
  · rw [h2]
    exact h3

/-- C7: error latching. The grab loop never clears a recorded error;
consumer ticks read but never change the error or the counter; and once a
run has recorded an error, every subsequent consumer read still sees the
`Failed` terminal state and the same non-empty error. -/
theorem C7_error_latched :
    (∀ (w stopSet : ℕ → Bool) (i : ℕ) (outs : List GrabOutcome)
      (s : GrabberState),
      (loop w stopSet i outs s).err = none → s.err = none) ∧
    (∀ (n : ℕ) (s : GrabberState),
      (readN n s).err = s.err ∧ (readN n s).frameIndex = s.frameIndex) ∧
    (∀ (devices : Bool) (openOut : OpenOutcome) (stopSet : ℕ → Bool)
      (outs : List GrabOutcome) (w : ℕ → Bool) (cr : Bool) (n : ℕ)
      (msg : String),
      (run devices openOut stopSet outs w cr).err = some msg → msg ≠ "" →
        terminalState (readN n (run devices openOut stopSet outs w cr)) =
          .Failed ∧
        (readN n (run devices openOut stopSet outs w cr)).err = some msg ∧
        errTruthy (readN n (run devices openOut stopSet outs w cr)) = true) := by
  refine ⟨fun w st i outs s => loop_err_latch w st outs i s,
    fun n s => ⟨readN_err n s, readN_frameIndex n s⟩, ?_⟩
  intro devices openOut stopSet outs w cr n msg h hne
  have hr : (readN n (run devices openOut stopSet outs w cr)).err =
      some msg := by
    rw [readN_err]
    exact h
  refine ⟨?_, hr, errTruthy_of_err _ _ hr hne⟩
  rw [terminalState_failed_iff, hr]
  simp

/-- C7 witness: a device failure latched across five consumer ticks. -/
theorem C7_error_latched_witness :
    terminalState (readN 5 (run true .ok (fun _ => false)
        [.failureExn "device failure"] (fun _ => true) true)) = .Failed ∧
    (readN 5 (run true .ok (fun _ => false) [.failureExn "device failure"]
        (fun _ => true) true)).err = some "device failure" ∧
    errTruthy (readN 5 (run true .ok (fun _ => false)
        [.failureExn "device failure"] (fun _ => true) true)) = true :=
  C7_error_latched.2.2 true .ok (fun _ => false)
    [.failureExn "device failure"] (fun _ => true) true 5 "device failure"
    rfl (by decide)

/-- C8: cancellation is cooperative and observed before each retrieval:
a loop entered with the flag set performs no retrieval and returns the
state unchanged; and a run whose flag is set from iteration `k` on, with no
retrieval exception among the first `k` outcomes, performs at most `k`
retrievals, records no error, ends `Stopped`, and still runs teardown
exactly once, leaving the handle released. -/
theorem C8_cooperative_cancellation :
    (∀ (w stopSet : ℕ → Bool) (i : ℕ) (o : GrabOutcome)
      (rest : List GrabOutcome) (s : GrabberState),
      stopSet i = true → loop w stopSet i (o :: rest) s = s) ∧
    (∀ (k : ℕ) (outs : List GrabOutcome) (w : ℕ → Bool) (cr : Bool),
      (∀ o ∈ outs.take k, o.isExn = false) →
        (run true .ok (stopFrom k) outs w cr).retrievals ≤ k ∧
        (run true .ok (stopFrom k) outs w cr).err = none ∧
        terminalState (run true .ok (stopFrom k) outs w cr) = .Stopped ∧
        (run true .ok (stopFrom k) outs w cr).teardowns = 1 ∧
        handleReleased (run true .ok (stopFrom k) outs w cr) = true) := by
  refine ⟨fun w st i o rest s h => loop_cons_stop w st i o rest s h, ?_⟩
  intro k outs w cr h
  obtain ⟨h1, h2⟩ := loop_stopFrom_bound w k outs 0
    { initState with camAssigned := true } (by simpa using h)
  have he : (run true .ok (stopFrom k) outs w cr).err = none := by
    rw [run_ok, teardown_err, h1]
    rfl
  refine ⟨?_, he, ?_, ?_, ?_⟩
  · rw [run_ok, teardown_retrievals]
    simpa [initState] using h2
  · simp [terminalState, he]
  · rw [run_ok, teardown_teardowns, loop_teardowns]
    rfl
  · rw [run_ok]
    exact teardown_released _ _

/-- C8 witness: flag set from iteration 1, one clean outcome before it. -/
theorem C8_cooperative_cancellation_witness :
    (run true .ok (stopFrom 1) [.grabFailed, .success 2]
        (fun _ => true) false).retrievals ≤ 1 ∧
    (run true .ok (stopFrom 1) [.grabFailed, .success 2]
        (fun _ => true) false).err = none ∧
    terminalState (run true .ok (stopFrom 1) [.grabFailed, .success 2]
        (fun _ => true) false) = .Stopped ∧
    (run true .ok (stopFrom 1) [.grabFailed, .success 2]
        (fun _ => true) false).teardowns = 1 ∧
    handleReleased (run true .ok (stopFrom 1) [.grabFailed, .success 2]
        (fun _ => true) false) = true :=
  C8_cooperative_cancellation.2 1 [.grabFailed, .success 2] (fun _ => true)
    false (by decide)

/-- C9: `last_save_time` starts at 0 and the cadence test compares wall
clock time against it, so whenever the first frame's wall time is at least
the target interval (always true of epoch time), the first successfully
retrieved frame is persisted and the counter reaches 1. -/
theorem C9_first_frame_persisted (t : ℚ) (w : ℕ → Bool) (cr : Bool)
    (h : TARGET_SAVE_INTERVAL ≤ t) :
    initState.lastSaveTime = 0 ∧
    (∀ (s : GrabberState) (fid : ℕ), s.lastSaveTime = 0 →
      (processFrame w s fid t).frameIndex = s.frameIndex + 1) ∧
    (run true .ok (fun _ => false) [.success t] w cr).frameIndex = 1 ∧
    (run true .ok (fun _ => false) [.success t] w cr).lastSaveTime = t := by
  have hpos : ∀ (s : GrabberState), s.lastSaveTime = 0 →
      TARGET_SAVE_INTERVAL ≤ t - s.lastSaveTime := by
    intro s hs
    rw [hs, sub_zero]
    exact h
  refine ⟨rfl, ?_, ?_, ?_⟩
  · intro s fid hs
    rw [processFrame_eq_pos w s fid t (hpos s hs)]
  · rw [run_ok, loop_cons_success _ _ _ _ _ _ rfl,
      processFrame_eq_pos _ _ _ _ (hpos _ rfl), loop_nil,
      teardown_frameIndex]
    rfl
  · rw [run_ok, loop_cons_success _ _ _ _ _ _ rfl,
      processFrame_eq_pos _ _ _ _ (hpos _ rfl), loop_nil,
      teardown_lastSaveTime]

/-- C9 witness: a single frame at wall time 1 is persisted. -/
theorem C9_first_frame_persisted_witness :
    initState.lastSaveTime = 0 ∧
    (run true .ok (fun _ => false) [.success 1] (fun _ => true)
        false).frameIndex = 1 ∧
    (run true .ok (fun _ => false) [.success 1] (fun _ => true)
        false).lastSaveTime = 1 :=
  ⟨(C9_first_frame_persisted 1 (fun _ => true) false
      (by norm_num [TARGET_SAVE_INTERVAL, SAVE_RATE])).1,
    (C9_first_frame_persisted 1 (fun _ => true) false
      (by norm_num [TARGET_SAVE_INTERVAL, SAVE_RATE])).2.2.1,
    (C9_first_frame_persisted 1 (fun _ => true) false
      (by norm_num [TARGET_SAVE_INTERVAL, SAVE_RATE])).2.2.2⟩

/-- C10: the boolean result of `cv2.imwrite` is ignored: the final counter,
timestamp and save log (up to the recorded write results) are identical for
any two write oracles, the counter equals the number of write attempts, and
the number of successful writes is at most the counter (strictly less when
writes failed). -/
theorem C10_imwrite_result_ignored (devices : Bool) (openOut : OpenOutcome)
    (stopSet : ℕ → Bool) (outs : List GrabOutcome) (cr : Bool)
    (w w' : ℕ → Bool) :
    (run devices openOut stopSet outs w cr).frameIndex =
      (run devices openOut stopSet outs w' cr).frameIndex ∧
    (run devices openOut stopSet outs w cr).lastSaveTime =
      (run devices openOut stopSet outs w' cr).lastSaveTime ∧
    (run devices openOut stopSet outs w cr).saved.map scrubFrame =
      (run devices openOut stopSet outs w' cr).saved.map scrubFrame ∧
    (run devices openOut stopSet outs w cr).frameIndex =
      (run devices openOut stopSet outs w cr).saved.length ∧
    ((run devices openOut stopSet outs w cr).saved.filter
        (fun f => f.writeOk)).length ≤
      (run devices openOut stopSet outs w cr).frameIndex := by
  obtain ⟨hq, he, hf, hl, hs, hca, hcc, hr, ht⟩ :=
    scrubObs_fields _ _ (run_scrubObs devices openOut stopSet outs cr w w')
  obtain ⟨_, h2, _, _, _⟩ := run_savedInv devices openOut stopSet outs w cr
  refine ⟨hf, hl, hs, h2.symm, ?_⟩
  rw [← h2]
  exact List.length_filter_le _ _

end CameraFeed
